import Mathlib

/-!
Shallow embedding of the sms-tracker repository.

Sources embedded:
- src/database.py : the relational schema (TrackingSession, LocationUpdate)
- src/sms_service.py : the notification gateway (SMSService)
- src/app.py : the lifecycle operations (send_tracking_request,
  get_tracking_session, get_locations, save_location) and the consumers
  of session status (show_share_location_page, show_tracking_sessions_page)

Modelling conventions:
- Time is a logical clock in seconds (Nat); one request observes one
  instant, so every `datetime.now(timezone.utc)` inside a single request
  reads the same `now` parameter. 24 hours = 86400 seconds.
- The uuid4 id supply of TrackingSession.id is modelled by the counter
  `next_session_id` of the state: each generated id is fresh, which is
  exactly the freshness property uuid4 is used for. LocationUpdate.id is
  the auto-incrementing primary key, modelled by `next_location_id`.
- Coordinates and accuracy (Python floats) are modelled as rationals.
- The Twilio transport is an explicit parameter
  `transport : String → String → Except String String`
  (message body and formatted phone in, message sid out, or the error a
  raised exception would carry); the try/except around the transport call
  in sms_service.py is the `match` on this `Except`.
- A column declared nullable=False rejects a missing value when the
  insert is flushed (IntegrityError); the `except` branch of
  app.send_tracking_request turns that into a rolled-back failure result.
-/

/-- The status column of tracking_sessions: String(20) whose only stored
values in the code are the literals pending, active and expired
(default value pending, src/database.py line 18). -/
inductive Status where
  | pending
  | active
  | expired
deriving DecidableEq, Repr, BEq

/-- Ordering of statuses along the lifecycle pending → active → expired,
used to state monotonicity. -/
def statusRank : Status → Nat
  | Status.pending => 0
  | Status.active => 1
  | Status.expired => 2

/-- Row of tracking_sessions (src/database.py lines 11-22). sender_phone
and recipient_phone are nullable=False columns, so a persisted row always
holds a string for each (possibly empty: no non-emptiness constraint
exists in the schema). -/
structure TrackingSession where
  id : Nat
  sender_phone : String
  recipient_phone : String
  message : Option String
  status : Status
  created_at : Nat
  expires_at : Nat
deriving DecidableEq, Repr

/-- Row of location_updates (src/database.py lines 24-35). -/
structure LocationUpdate where
  id : Nat
  session_id : Nat
  latitude : ℚ
  longitude : ℚ
  accuracy : Option ℚ
  timestamp : Nat
  address : Option String
deriving DecidableEq, Repr

/-- The persisted database state: both tables plus the two id supplies. -/
structure DB where
  sessions : List TrackingSession
  locations : List LocationUpdate
  next_session_id : Nat
  next_location_id : Nat
deriving DecidableEq, Repr

/-- Configuration of the notification gateway (src/sms_service.py
lines 9-29): whether Twilio credentials are configured and usable, and
the SERVER_URL used to build tracking links. -/
structure SMSConfig where
  twilio_configured : Bool
  server_url : String
deriving DecidableEq, Repr

/-- The dictionary returned by SMSService.send_tracking_request, with one
field per key that any of its three return branches sets; a key a branch
does not set is `none` / a default. -/
structure SmsResult where
  success : Bool
  sms_sent : Option Bool := none
  message_sid : Option String := none
  tracking_url : String
  message : String
  error : Option String := none
deriving DecidableEq, Repr

/-- Python `custom_message or default` on an optional string: None and
the empty string are falsy, any other string is returned unchanged
(src/sms_service.py line 53). -/
def py_or_string (v : Option String) (default : String) : String :=
  match v with
  | none => default
  | some s => if s = "" then default else s

/-- Phone formatting on the transport path (src/sms_service.py
lines 49-51): strip surrounding whitespace, remove inner spaces, prepend
a plus sign when absent. -/
def format_phone (recipient_phone : String) : String :=
  let s := (recipient_phone.trim).replace " " ""
  if s.startsWith "+" then s else "+" ++ s

/-- The outbound message body (src/sms_service.py line 53). -/
def message_body (custom_message : Option String) (tracking_url : String) : String :=
  py_or_string custom_message "Please share your location for safety reasons." ++
    "\n\nShare your location here: " ++ tracking_url ++
    "\n\nThis link will expire in 24 hours."

namespace SMSService

/-- SMSService.send_tracking_request (src/sms_service.py lines 31-74).
Builds the tracking URL, returns the demo-mode dictionary when Twilio is
not configured, otherwise formats the phone, builds the body and calls
the transport inside try/except: a transport error becomes the failure
dictionary, never an uncaught exception. -/
def send_tracking_request (cfg : SMSConfig)
    (transport : String → String → Except String String)
    (recipient_phone : String) (tracking_id : String)
    (custom_message : Option String) : SmsResult :=
  let tracking_url := cfg.server_url ++ "/?tracking_id=" ++ tracking_id
  if cfg.twilio_configured = false then
    { success := true
      sms_sent := some false
      tracking_url := tracking_url
      message := "DEMO MODE: Copy this URL to share manually" }
  else
    match transport (message_body custom_message tracking_url) (format_phone recipient_phone) with
    | Except.ok sid =>
      { success := true
        message_sid := some sid
        tracking_url := tracking_url
        message := "SMS sent successfully" }
    | Except.error e =>
      { success := false
        error := some e
        tracking_url := tracking_url
        message := "SMS failed: " ++ e }

end SMSService

/-- The dictionary returned by app.send_tracking_request
(src/app.py lines 54-77). -/
structure SendResult where
  success : Bool
  tracking_id : Option Nat := none
  tracking_url : String := ""
  sms_sent : Bool := false
  sms_message : String := ""
  sms_error : Option String := none
  error : Option String := none
deriving DecidableEq, Repr

/-- The dictionary returned by app.save_location
(src/app.py lines 104-126). -/
structure SaveResult where
  success : Bool
  error : Option String := none
deriving DecidableEq, Repr

/-- app.get_tracking_session (src/app.py lines 81-87): first row of
tracking_sessions whose id matches. -/
def get_tracking_session (db : DB) (tracking_id : Nat) : Option TrackingSession :=
  db.sessions.find? (fun s => s.id == tracking_id)

/-- app.get_locations (src/app.py lines 89-98): the rows of
location_updates for the session, ordered by timestamp ascending (the
sort is stable, so rows with equal timestamps keep insertion order, as
an ORDER BY over the insertion-ordered table does). -/
def get_locations (db : DB) (tracking_id : Nat) : List LocationUpdate :=
  (db.locations.filter (fun l => l.session_id == tracking_id)).mergeSort
    (fun a b => a.timestamp ≤ b.timestamp)

/-- app.send_tracking_request (src/app.py lines 32-79): create the
session row (status defaults to pending, created_at to now; expires_at
is now + 24 hours), commit, then call the SMS service; the SMS outcome
is copied into the result but the committed row stays either way. A
missing NOT NULL phone makes the commit raise, and the except branch
returns a rolled-back failure. -/
def send_tracking_request (cfg : SMSConfig)
    (transport : String → String → Except String String)
    (db : DB) (now : Nat)
    (sender_phone recipient_phone custom_message : Option String) :
    DB × SendResult :=
  match sender_phone, recipient_phone with
  | some sp, some rp =>
    let ts : TrackingSession :=
      { id := db.next_session_id
        sender_phone := sp
        recipient_phone := rp
        message := custom_message
        status := Status.pending
        created_at := now
        expires_at := now + 24 * 3600 }
    let db1 : DB :=
      { db with
        sessions := ts :: db.sessions
        next_session_id := db.next_session_id + 1 }
    let sms := SMSService.send_tracking_request cfg transport rp (toString ts.id) custom_message
    (db1,
      { success := true
        tracking_id := some ts.id
        tracking_url := sms.tracking_url
        sms_sent := sms.success
        sms_message := sms.message
        sms_error := if sms.success then none else some (sms.error.getD "Unknown error") })
  | _, _ =>
    (db, { success := false, error := some "NOT NULL constraint failed" })

/-- app.save_location (src/app.py lines 100-128): look the session up
(the same query get_tracking_session runs); missing session is the
invalid-tracking-session failure; otherwise a pending session becomes
active, and a LocationUpdate row is appended with the server-assigned
timestamp. No validation of latitude, longitude or accuracy happens
here. -/
def save_location (db : DB) (now : Nat) (tracking_id : Nat)
    (latitude longitude : ℚ) (accuracy : Option ℚ) : DB × SaveResult :=
  match get_tracking_session db tracking_id with
  | none => (db, { success := false, error := some "Invalid tracking session" })
  | some ts =>
    let ts1 := if ts.status = Status.pending then { ts with status := Status.active } else ts
    let loc : LocationUpdate :=
      { id := db.next_location_id
        session_id := tracking_id
        latitude := latitude
        longitude := longitude
        accuracy := accuracy
        timestamp := now
        address := none }
    ({ db with
        sessions := db.sessions.map (fun s => if s.id == tracking_id then ts1 else s)
        locations := db.locations ++ [loc]
        next_location_id := db.next_location_id + 1 },
      { success := true })

/-- The expiry test of show_share_location_page (src/app.py lines
344-346): the page reports an expired link exactly when the persisted
status column equals expired; no read path consults expires_at and no
clock is read, so this function takes no time parameter. -/
def share_page_reports_expired (db : DB) (tracking_id : Nat) : Bool :=
  match get_tracking_session db tracking_id with
  | none => false
  | some ts => ts.status == Status.expired

/-- The Accuracy column of the location-history table and CSV export
(src/app.py line 291): the Python expression is
f-string of accuracy followed by the letter m if loc.accuracy else "N/A",
where the truthiness test makes both None and 0.0 take the "N/A"
branch. showNum abstracts the f-string rendering of the float. -/
def render_accuracy (showNum : ℚ → String) (accuracy : Option ℚ) : String :=
  match accuracy with
  | none => "N/A"
  | some a => if a = 0 then "N/A" else showNum a ++ "m"

/-- A sample persisted state: one session with id 0 in status pending
and no locations, the id supply at 1. -/
def sampleSession : TrackingSession :=
  { id := 0
    sender_phone := "+15550000000"
    recipient_phone := "+15551234567"
    message := none
    status := Status.pending
    created_at := 0
    expires_at := 86400 }

/-- Sample database holding sampleSession only. -/
def sampleDB : DB :=
  { sessions := [sampleSession]
    locations := []
    next_session_id := 1
    next_location_id := 0 }

/-- Gateway configuration with no Twilio transport (demo mode). -/
def demoConfig : SMSConfig :=
  { twilio_configured := false, server_url := "http://localhost:8501" }

/-- Gateway configuration with a configured Twilio transport. -/
def liveConfig : SMSConfig :=
  { twilio_configured := true, server_url := "http://localhost:8501" }

/-- A transport that accepts every message. -/
def okTransport : String → String → Except String String :=
  fun _ _ => Except.ok "SM123"

/-- A transport that raises on every message. -/
def failTransport : String → String → Except String String :=
  fun _ _ => Except.error "HTTP 401 Unauthorized"


/-! ### Helper lemmas shared by the claims -/

/-- Updating the one matching session in the list updates what the lookup
query returns: if the first row with the wanted id is ts, mapping the
update that replaces rows with that id by ts1 (same id) makes the first
matching row ts1. -/
theorem find?_session_map_update (l : List TrackingSession) (tid : Nat)
    (ts ts1 : TrackingSession)
    (hfind : l.find? (fun s => s.id == tid) = some ts)
    (hid : ts1.id = ts.id) :
    (l.map (fun s => if s.id == tid then ts1 else s)).find? (fun s => s.id == tid) = some ts1 := by
  induction l with
  | nil => simp [List.find?] at hfind
  | cons a l ih =>
    by_cases hb : a.id = tid
    · have hba : (a.id == tid) = true := by simp [hb]
      have hts : a = ts := by
        simp [List.find?, hba] at hfind
        exact hfind
      have hb1 : (ts1.id == tid) = true := by
        simp [hid, ← hts, hb]
      simp [List.find?, hba, hb1]
    · have hba : (a.id == tid) = false := by simp [hb]
      have hupd : (if a.id == tid then ts1 else a) = a := by simp [hba]
      simp only [List.find?, hba] at hfind
      rw [List.map_cons, hupd]
      simp only [List.find?, hba]
      exact ih hfind

/-- With pairwise-distinct ids (the primary key), any member whose id is
the looked-up id is the row find? returns. -/
theorem mem_id_eq_found (l : List TrackingSession) (tid : Nat)
    (ts : TrackingSession)
    (hfind : l.find? (fun s => s.id == tid) = some ts)
    (hnodup : l.Pairwise (fun a b => a.id ≠ b.id)) :
    ∀ s ∈ l, s.id = tid → s = ts := by
  induction l with
  | nil => intro s hs; simp at hs
  | cons a l ih =>
    rw [List.pairwise_cons] at hnodup
    intro s hs hsid
    rcases List.mem_cons.mp hs with hsa | hsl
    · subst hsa
      have hba : (s.id == tid) = true := by simp [hsid]
      simp [List.find?, hba] at hfind
      exact hfind
    · by_cases hb : a.id = tid
      · exact absurd (hsid.trans hb.symm).symm (hnodup.1 s hsl)
      · have hba : (a.id == tid) = false := by simp [hb]
        simp only [List.find?, hba] at hfind
        exact ih hfind hnodup.2 s hsl hsid

/-- No string followed by the letter m equals the string N/A: their last
characters differ. -/
theorem append_m_ne_na (s : String) : s ++ "m" ≠ "N/A" := by
  intro h
  have h2 := congrArg String.data h
  rw [String.data_append] at h2
  have hm : ("m" : String).data = ['m'] := rfl
  have hna : ("N/A" : String).data = ['N', '/', 'A'] := rfl
  rw [hm, hna] at h2
  have h3 := congrArg List.reverse h2
  simp [List.reverse_append] at h3

/-! ### C1 -/

/-- C1 counterexample: latitude 200 is outside [-90, 90], yet
save_location on an existing pending session succeeds, appends a
LocationUpdate row, and flips the status to active: no InvalidCoordinates
rejection exists in the code. -/
theorem c1_counterexample :
    (200 : ℚ) > 90 ∧
    (save_location sampleDB 5 0 200 0 none).2.success = true ∧
    (save_location sampleDB 5 0 200 0 none).2.error = none ∧
    (save_location sampleDB 5 0 200 0 none).1.locations.length =
      sampleDB.locations.length + 1 ∧
    (get_tracking_session (save_location sampleDB 5 0 200 0 none).1 0).map
      TrackingSession.status = some Status.active := by
  decide

/-- C1 amended: save_location performs no coordinate-range validation:
for every existing session and every latitude/longitude/accuracy
whatsoever, the call succeeds and appends exactly one LocationUpdate row
holding the given values (range enforcement exists only in the UI input
widgets, not in record_location). -/
theorem c1_amended (db : DB) (now tid : Nat) (lat lon : ℚ) (acc : Option ℚ)
    (ts : TrackingSession) (hfind : get_tracking_session db tid = some ts) :
    (save_location db now tid lat lon acc).2.success = true ∧
    (save_location db now tid lat lon acc).1.locations = db.locations ++
      [{ id := db.next_location_id, session_id := tid, latitude := lat,
         longitude := lon, accuracy := acc, timestamp := now, address := none }] := by
  unfold save_location
  rw [hfind]
  exact ⟨rfl, rfl⟩

/-- C1 witness: the amended statement evaluated on the sample state with
latitude 200. -/
theorem c1_amended_witness :
    (save_location sampleDB 5 0 200 0 none).2.success = true ∧
    (save_location sampleDB 5 0 200 0 none).1.locations = sampleDB.locations ++
      [{ id := sampleDB.next_location_id, session_id := 0, latitude := 200,
         longitude := 0, accuracy := none, timestamp := 5, address := none }] :=
  c1_amended sampleDB 5 0 200 0 none sampleSession rfl

/-! ### C2 -/

/-- The database state after creating one session at time 0 from an empty
database (demo-mode gateway): one session with id 0, created_at 0,
expires_at 86400. -/
def c2_db : DB :=
  (send_tracking_request demoConfig okTransport
    { sessions := [], locations := [], next_session_id := 0, next_location_id := 0 }
    0 (some "+15550000000") (some "+15551234567") none).1

/-- C2: a session created at time 0 expires at 86400 s, yet fetched at
90000 s (25 hours later) the status every consumer sees is still
pending, and the share page does not report expiry: no read path
consults expires_at (the fetch takes no clock at all) and no write path
ever stores the expired status. -/
theorem c2_fetch_after_25h_not_expired :
    (get_tracking_session c2_db 0).map TrackingSession.expires_at = some 86400 ∧
    86400 ≤ 90000 ∧
    (get_tracking_session c2_db 0).map TrackingSession.status = some Status.pending ∧
    share_page_reports_expired c2_db 0 = false := by
  decide

/-! ### C3 -/

/-- C3: with both NOT NULL phones supplied, create_session prepends a
session whose status is pending, whose created_at is the request instant,
whose expires_at is created_at plus exactly 24 hours, returns its id, and
that id differs from every id already in the store (the id supply is
fresh). -/
theorem c3_create_session (cfg : SMSConfig)
    (transport : String → String → Except String String)
    (db : DB) (now : Nat) (sp rp : String) (msg : Option String)
    (hfresh : ∀ s ∈ db.sessions, s.id < db.next_session_id) :
    ∃ ts : TrackingSession,
      (send_tracking_request cfg transport db now (some sp) (some rp) msg).1.sessions =
        ts :: db.sessions ∧
      ts.status = Status.pending ∧
      ts.created_at = now ∧
      ts.expires_at = ts.created_at + 24 * 3600 ∧
      (send_tracking_request cfg transport db now (some sp) (some rp) msg).2.tracking_id =
        some ts.id ∧
      ∀ s ∈ db.sessions, s.id ≠ ts.id := by
  refine ⟨{ id := db.next_session_id, sender_phone := sp, recipient_phone := rp,
            message := msg, status := Status.pending, created_at := now,
            expires_at := now + 24 * 3600 }, rfl, rfl, rfl, rfl, rfl, ?_⟩
  intro s hs
  exact Nat.ne_of_lt (hfresh s hs)

/-- C3 witness: creation at time 100 on the sample state. -/
theorem c3_create_session_witness :
    ∃ ts : TrackingSession,
      (send_tracking_request demoConfig okTransport sampleDB 100
        (some "+15550000000") (some "+15551234567") none).1.sessions =
        ts :: sampleDB.sessions ∧
      ts.status = Status.pending ∧
      ts.created_at = 100 ∧
      ts.expires_at = ts.created_at + 24 * 3600 ∧
      (send_tracking_request demoConfig okTransport sampleDB 100
        (some "+15550000000") (some "+15551234567") none).2.tracking_id =
        some ts.id ∧
      ∀ s ∈ sampleDB.sessions, s.id ≠ ts.id :=
  c3_create_session demoConfig okTransport sampleDB 100
    "+15550000000" "+15551234567" none (by decide)

/-! ### C4 -/

/-- C4: on an existing session, save_location flips pending to active and
leaves active or expired unchanged (the looked-up row afterwards is the
conditional update of the row before); position by position every
session keeps its id and its status rank never decreases (monotonic
pending → active → expired, never backwards); and creating a new session
never touches an existing row. -/
theorem c4_status_monotonic (db : DB) (now tid : Nat) (lat lon : ℚ)
    (acc : Option ℚ) (ts : TrackingSession)
    (hfind : get_tracking_session db tid = some ts)
    (hnodup : db.sessions.Pairwise (fun a b => a.id ≠ b.id)) :
    (get_tracking_session (save_location db now tid lat lon acc).1 tid =
      some (if ts.status = Status.pending then { ts with status := Status.active } else ts)) ∧
    (save_location db now tid lat lon acc).2.success = true ∧
    List.Forall₂ (fun s s1 => s.id = s1.id ∧ statusRank s.status ≤ statusRank s1.status)
      db.sessions (save_location db now tid lat lon acc).1.sessions ∧
    (∀ (cfg : SMSConfig) (transport : String → String → Except String String)
       (now2 : Nat) (sp2 rp2 msg2 : Option String) (s : TrackingSession),
       s ∈ db.sessions →
       s ∈ (send_tracking_request cfg transport db now2 sp2 rp2 msg2).1.sessions) := by
  have hid : (if ts.status = Status.pending then { ts with status := Status.active } else ts).id = ts.id := by
    by_cases h : ts.status = Status.pending <;> simp [h]
  refine ⟨?_, ?_, ?_, ?_⟩
  · unfold save_location
    rw [hfind]
    exact find?_session_map_update db.sessions tid ts _ hfind hid
  · unfold save_location
    rw [hfind]
  · unfold save_location
    rw [hfind]
    show List.Forall₂ _ db.sessions
      (db.sessions.map (fun s => if s.id == tid then
        (if ts.status = Status.pending then { ts with status := Status.active } else ts) else s))
    rw [List.forall₂_map_right_iff]
    rw [List.forall₂_same]
    intro s hs
    by_cases hb : s.id = tid
    · have hba : (s.id == tid) = true := by simp [hb]
      have hts : s = ts := mem_id_eq_found db.sessions tid ts hfind hnodup s hs hb
      rw [hba, if_pos rfl]
      subst hts
      constructor
      · rw [hid]
      · by_cases hp : s.status = Status.pending
        · simp [hp, statusRank]
        · simp [hp]
    · have hba : (s.id == tid) = false := by simp [hb]
      rw [hba]
      simp
  · intro cfg transport now2 sp2 rp2 msg2 s hs
    cases sp2 <;> cases rp2 <;>
      first
        | exact hs
        | exact List.mem_cons_of_mem _ hs

/-- C4 witness: the sample state, one pending session, a location saved
at time 5. -/
theorem c4_status_monotonic_witness :
    (get_tracking_session (save_location sampleDB 5 0 1 2 none).1 0 =
      some (if sampleSession.status = Status.pending then
        { sampleSession with status := Status.active } else sampleSession)) ∧
    (save_location sampleDB 5 0 1 2 none).2.success = true ∧
    List.Forall₂ (fun s s1 => s.id = s1.id ∧ statusRank s.status ≤ statusRank s1.status)
      sampleDB.sessions (save_location sampleDB 5 0 1 2 none).1.sessions ∧
    (∀ (cfg : SMSConfig) (transport : String → String → Except String String)
       (now2 : Nat) (sp2 rp2 msg2 : Option String) (s : TrackingSession),
       s ∈ sampleDB.sessions →
       s ∈ (send_tracking_request cfg transport sampleDB now2 sp2 rp2 msg2).1.sessions) :=
  c4_status_monotonic sampleDB 5 0 1 2 none sampleSession rfl (by simp [sampleDB])

/-! ### C5 -/

/-- C5 counterexample: with a truly absent (NULL) sender_phone the NOT
NULL column constraint makes the commit fail, so create_session returns
a failure and writes nothing: the sender field is not optional at the
persistence layer. -/
theorem c5_counterexample :
    (send_tracking_request demoConfig okTransport sampleDB 0
      none (some "+15551234567") none).2.success = false ∧
    (send_tracking_request demoConfig okTransport sampleDB 0
      none (some "+15551234567") none).1 = sampleDB := by
  decide

/-- C5 amended: a blank optional sender arrives from the UI as the empty
string, which the schema accepts: for every non-empty recipient phone
and empty-string sender, a session row is created and its id returned. -/
theorem c5_amended (cfg : SMSConfig)
    (transport : String → String → Except String String)
    (db : DB) (now : Nat) (rp : String) (msg : Option String)
    (_hrp : rp ≠ "") :
    (send_tracking_request cfg transport db now (some "") (some rp) msg).2.success = true ∧
    (send_tracking_request cfg transport db now (some "") (some rp) msg).2.tracking_id =
      some db.next_session_id ∧
    ∃ ts : TrackingSession,
      (send_tracking_request cfg transport db now (some "") (some rp) msg).1.sessions =
        ts :: db.sessions ∧
      ts.sender_phone = "" ∧ ts.id = db.next_session_id := by
  exact ⟨rfl, rfl, ⟨_, rfl, rfl, rfl⟩⟩

/-- C5 witness: the amended statement on the sample state. -/
theorem c5_amended_witness :
    (send_tracking_request demoConfig okTransport sampleDB 0
      (some "") (some "+15551234567") none).2.success = true ∧
    (send_tracking_request demoConfig okTransport sampleDB 0
      (some "") (some "+15551234567") none).2.tracking_id =
      some sampleDB.next_session_id ∧
    ∃ ts : TrackingSession,
      (send_tracking_request demoConfig okTransport sampleDB 0
        (some "") (some "+15551234567") none).1.sessions =
        ts :: sampleDB.sessions ∧
      ts.sender_phone = "" ∧ ts.id = sampleDB.next_session_id :=
  c5_amended demoConfig okTransport sampleDB 0 "+15551234567" none (by decide)

/-! ### C6 -/

/-- C6: whenever persistence succeeds (both NOT NULL phones present),
create_session reports success with the new id and the row is in the
store, whatever the transport does: every previously stored session is
still there, the new one is prepended, and an SMS failure is surfaced in
the result (sms_error is set exactly when the gateway failed) without any
rollback or delete. -/
theorem c6_session_survives_sms (cfg : SMSConfig)
    (transport : String → String → Except String String)
    (db : DB) (now : Nat) (sp rp : String) (msg : Option String) :
    (send_tracking_request cfg transport db now (some sp) (some rp) msg).2.success = true ∧
    (send_tracking_request cfg transport db now (some sp) (some rp) msg).2.tracking_id =
      some db.next_session_id ∧
    (∃ ts : TrackingSession,
      (send_tracking_request cfg transport db now (some sp) (some rp) msg).1.sessions =
        ts :: db.sessions ∧ ts.id = db.next_session_id) ∧
    (∀ s ∈ db.sessions,
      s ∈ (send_tracking_request cfg transport db now (some sp) (some rp) msg).1.sessions) ∧
    ((send_tracking_request cfg transport db now (some sp) (some rp) msg).2.sms_sent = false →
      (send_tracking_request cfg transport db now (some sp) (some rp) msg).2.sms_error.isSome = true) := by
  refine ⟨rfl, rfl, ⟨_, rfl, rfl⟩, ?_, ?_⟩
  · intro s hs
    exact List.mem_cons_of_mem _ hs
  · intro h
    have h2 : (SMSService.send_tracking_request cfg transport rp
        (toString db.next_session_id) msg).success = false := h
    show (if (SMSService.send_tracking_request cfg transport rp
        (toString db.next_session_id) msg).success = true then (none : Option String)
      else some ((SMSService.send_tracking_request cfg transport rp
        (toString db.next_session_id) msg).error.getD "Unknown error")).isSome = true
    rw [h2]
    simp

/-! ### C7 -/

/-- C7: the gateway is total over every configuration and transport
outcome: the result is the demo-mode dictionary (success, sms_sent
false), the sent dictionary (success with a message sid), or the failed
dictionary (failure with the captured error) — and in every case the
tracking URL is present in the result, so a transport error never
escapes as an uncaught fault and the caller can degrade gracefully. -/
theorem c7_gateway_never_throws (cfg : SMSConfig)
    (transport : String → String → Except String String)
    (rp tid : String) (msg : Option String) :
    (SMSService.send_tracking_request cfg transport rp tid msg).tracking_url =
      cfg.server_url ++ "/?tracking_id=" ++ tid ∧
    (((SMSService.send_tracking_request cfg transport rp tid msg).success = true ∧
      (SMSService.send_tracking_request cfg transport rp tid msg).sms_sent = some false) ∨
     ((SMSService.send_tracking_request cfg transport rp tid msg).success = true ∧
      (SMSService.send_tracking_request cfg transport rp tid msg).message_sid.isSome = true) ∨
     ((SMSService.send_tracking_request cfg transport rp tid msg).success = false ∧
      (SMSService.send_tracking_request cfg transport rp tid msg).error.isSome = true)) := by
  unfold SMSService.send_tracking_request
  dsimp only
  split
  · exact ⟨rfl, Or.inl ⟨rfl, rfl⟩⟩
  · split
    · exact ⟨rfl, Or.inr (Or.inl ⟨rfl, rfl⟩)⟩
    · exact ⟨rfl, Or.inr (Or.inr ⟨rfl, rfl⟩)⟩

/-! ### C8 -/

/-- C8 counterexample: for session id abc123 and the default base URL,
the gateway builds http://localhost:8501/?tracking_id=abc123 — a slash
is inserted before the query string, so the URL is not the base URL
directly followed by the question mark. -/
theorem c8_counterexample :
    (SMSService.send_tracking_request demoConfig okTransport
      "+15551234567" "abc123" none).tracking_url =
      "http://localhost:8501/?tracking_id=abc123" ∧
    (SMSService.send_tracking_request demoConfig okTransport
      "+15551234567" "abc123" none).tracking_url ≠
      demoConfig.server_url ++ "?tracking_id=" ++ "abc123" := by
  decide

/-- C8 amended: for every session id, the tracking URL built by the
gateway is exactly the configured base server URL followed by
/?tracking_id= and the session id. -/
theorem c8_amended (cfg : SMSConfig)
    (transport : String → String → Except String String)
    (rp tid : String) (msg : Option String) :
    (SMSService.send_tracking_request cfg transport rp tid msg).tracking_url =
      cfg.server_url ++ "/?tracking_id=" ++ tid := by
  unfold SMSService.send_tracking_request
  dsimp only
  split
  · rfl
  · split <;> rfl

/-! ### C9 -/

/-- C9 counterexample: a present accuracy of 0 renders as N/A, because
the Python truthiness test treats the float 0.0 like None: N/A is not
rendered exactly when the accuracy is absent. -/
theorem c9_counterexample :
    (some (0 : ℚ)).isSome = true ∧
    render_accuracy (fun _ => "0.0") (some (0 : ℚ)) = "N/A" := by
  decide

/-- C9 amended: the Accuracy column renders N/A exactly when the
accuracy is absent or zero (both falsy in Python), and renders the
number followed by m for every present nonzero accuracy. -/
theorem c9_amended (showNum : ℚ → String) (acc : Option ℚ) :
    (render_accuracy showNum acc = "N/A" ↔ acc = none ∨ acc = some 0) ∧
    ∀ a : ℚ, a ≠ 0 → render_accuracy showNum (some a) = showNum a ++ "m" := by
  constructor
  · constructor
    · intro h
      match acc with
      | none => exact Or.inl rfl
      | some a =>
        by_cases ha : a = 0
        · exact Or.inr (by rw [ha])
        · exfalso
          apply append_m_ne_na (showNum a)
          rw [← h]
          simp [render_accuracy, ha]
    · intro h
      rcases h with h | h <;> rw [h] <;> simp [render_accuracy]
  · intro a ha
    simp [render_accuracy, ha]

/-! ### C10 -/

/-- C10: with the transport configured, an empty custom message is
indistinguishable from an absent one: the gateway result is identical,
and the body opens with the default text Please share your location for
safety reasons. -/
theorem c10_empty_message_uses_default (cfg : SMSConfig)
    (transport : String → String → Except String String)
    (rp tid url : String)
    (_hcfg : cfg.twilio_configured = true) :
    SMSService.send_tracking_request cfg transport rp tid (some "") =
      SMSService.send_tracking_request cfg transport rp tid none ∧
    message_body (some "") url =
      "Please share your location for safety reasons." ++
        "\n\nShare your location here: " ++ url ++
        "\n\nThis link will expire in 24 hours." ∧
    message_body (some "") url = message_body none url := by
  exact ⟨rfl, rfl, rfl⟩

/-- C10 witness: the configured gateway with a failing transport and a
concrete URL. -/
theorem c10_empty_message_uses_default_witness :
    SMSService.send_tracking_request liveConfig failTransport "+15551234567" "abc" (some "") =
      SMSService.send_tracking_request liveConfig failTransport "+15551234567" "abc" none ∧
    message_body (some "") "http://localhost:8501/?tracking_id=abc" =
      "Please share your location for safety reasons." ++
        "\n\nShare your location here: " ++ "http://localhost:8501/?tracking_id=abc" ++
        "\n\nThis link will expire in 24 hours." ∧
    message_body (some "") "http://localhost:8501/?tracking_id=abc" =
      message_body none "http://localhost:8501/?tracking_id=abc" :=
  c10_empty_message_uses_default liveConfig failTransport "+15551234567" "abc"
    "http://localhost:8501/?tracking_id=abc" rfl
